import Mathlib

/-!
Shallow embedding of the Module Admission Engine and Mode Orchestrator of the
modular-satellite repository (src/core/registry.py, src/core/orchestrator.py).

Python dictionaries holding descriptor documents are modelled as records with
`Option` fields: a field is `none` exactly when the corresponding key is absent
from the dictionary.  Python sets are modelled as `Finset String`, Python dicts
used as key → value maps as association lists with dict semantics (overwrite in
place on an existing key, append otherwise).
-/

namespace Satellite

/-- `interfaces.power` sub-object of a descriptor (`bus_v`, `max_w` keys). -/
structure PowerIf where
  bus_v : Option Int
  max_w : Option Int
deriving DecidableEq, Repr

/-- `interfaces.data` sub-object of a descriptor (`protocol` key). -/
structure DataIf where
  protocol : Option String
deriving DecidableEq, Repr

/-- `interfaces` value of a descriptor: may lack `power` or `data`. -/
structure Interfaces where
  power : Option PowerIf
  data : Option DataIf
deriving DecidableEq, Repr

/-- One element of the `capabilities` list (`type`, `tag` keys). -/
structure Cap where
  type : Option String
  tag : Option String
deriving DecidableEq, Repr

/-- `constraints` value of a descriptor. -/
structure Constraints where
  thermal_w : Option Int
  requires : Option (List String)
  conflicts : Option (List String)
deriving DecidableEq, Repr

/-- A module descriptor dictionary.  Each field is `none` iff the key is
absent; a present key is assumed to hold a value of the expected shape. -/
structure Desc where
  module_id : Option String
  name : Option String
  vendor : Option String
  version : Option String
  certified : Option Bool
  interfaces : Option Interfaces
  capabilities : Option (List Cap)
  constraints : Option Constraints
deriving DecidableEq, Repr

/-- `SatelliteLimits` dataclass. -/
structure SatelliteLimits where
  power_bus_v : Int := 28
  power_budget_w : Int := 60
  thermal_budget_w : Int := 30
  data_protocol : String := "SpaceWire"
deriving DecidableEq, Repr

/-- `SatelliteState` dataclass.  `modules` is a Python dict keyed by module id,
modelled as an association list with dict insertion semantics. -/
structure SatelliteState where
  limits : SatelliteLimits := {}
  modules : List (String × Desc) := []
  tags_present : Finset String := ∅
  used_power_w : Int := 0
  used_thermal_w : Int := 0
deriving DecidableEq

/-- Dict update `m[k] = v`: overwrite in place when the key exists, append
otherwise. -/
def dictInsert (k : String) (v : Desc) (m : List (String × Desc)) :
    List (String × Desc) :=
  if m.any (fun p => p.1 = k) then
    m.map (fun p => if p.1 = k then (k, v) else p)
  else
    m ++ [(k, v)]

/-- Dict key-membership test `k in m`. -/
def dictHas (k : String) (m : List (String × Desc)) : Bool :=
  m.any (fun p => p.1 = k)

/-- Dict removal `m.pop(k)`. -/
def dictPop (k : String) (m : List (String × Desc)) : List (String × Desc) :=
  m.filter (fun p => p.1 ≠ k)

/-- The rejection / status messages produced by the registry, one constructor
per distinct message shape, carrying the data interpolated into the Python
f-string. -/
inductive Reason where
  | ok
  | missingKeys (keys : List String)
  | interfacesIncomplete
  | notCertified
  | busMismatch (satV : Int) (modV : Option Int)
  | protocolMismatch (satP : String) (modP : Option String)
  | powerExceeded (used draw budget : Int)
  | thermalExceeded (used draw budget : Int)
  | missingTags (tags : List String)
  | conflictTags (tags : List String)
deriving DecidableEq, Repr

/-- `REQUIRED_TOP_KEYS`, listed in Python `sorted` order. -/
def requiredTopKeys : List String :=
  ["capabilities", "certified", "constraints", "interfaces",
   "module_id", "name", "vendor", "version"]

/-- Whether descriptor `d` has the given top-level key. -/
def hasKey (d : Desc) : String → Bool
  | "module_id" => d.module_id.isSome
  | "name" => d.name.isSome
  | "vendor" => d.vendor.isSome
  | "version" => d.version.isSome
  | "certified" => d.certified.isSome
  | "interfaces" => d.interfaces.isSome
  | "capabilities" => d.capabilities.isSome
  | "constraints" => d.constraints.isSome
  | _ => false

/-- `sorted(REQUIRED_TOP_KEYS - set(desc.keys()))`. -/
def missingKeysOf (d : Desc) : List String :=
  requiredTopKeys.filter (fun k => ¬ hasKey d k)

/-- `ModuleRegistry._basic_schema_check`. -/
def basic_schema_check (d : Desc) : Bool × Reason :=
  if missingKeysOf d ≠ [] then
    (false, Reason.missingKeys (missingKeysOf d))
  else if (d.interfaces.getD ⟨none, none⟩).power.isNone
      ∨ (d.interfaces.getD ⟨none, none⟩).data.isNone then
    (false, Reason.interfacesIncomplete)
  else
    (true, Reason.ok)

/-- `desc["interfaces"]["power"]` with the accesses the code performs after a
passing schema check (the `getD` defaults are unreachable then). -/
def powerOf (d : Desc) : PowerIf :=
  (d.interfaces.getD ⟨none, none⟩).power.getD ⟨none, none⟩

/-- `desc["interfaces"]["data"]`. -/
def dataOf (d : Desc) : DataIf :=
  (d.interfaces.getD ⟨none, none⟩).data.getD ⟨none⟩

/-- `desc["constraints"]`. -/
def constraintsOf (d : Desc) : Constraints :=
  d.constraints.getD ⟨none, none, none⟩

/-- `int(desc["interfaces"]["power"].get("max_w", 0))`. -/
def maxW (d : Desc) : Int := (powerOf d).max_w.getD 0

/-- `int(desc["constraints"].get("thermal_w", 0))`. -/
def thermalW (d : Desc) : Int := (constraintsOf d).thermal_w.getD 0

/-- `set(desc["constraints"].get("requires", []))`. -/
def requiresOf (d : Desc) : Finset String :=
  ((constraintsOf d).requires.getD []).toFinset

/-- `set(desc["constraints"].get("conflicts", []))`. -/
def conflictsOf (d : Desc) : Finset String :=
  ((constraintsOf d).conflicts.getD []).toFinset

/-- `ModuleRegistry._compatibility_check`, following the code's appends in
order.  The reasons list is built exactly as the Python does. -/
def compatibility_check (s : SatelliteState) (d : Desc) :
    Bool × List Reason :=
  let lim := s.limits
  let r1 : List Reason :=
    if ¬ (d.certified.getD false) then [Reason.notCertified] else []
  let bus_v := (powerOf d).bus_v
  let r2 : List Reason :=
    if bus_v ≠ some lim.power_bus_v then
      [Reason.busMismatch lim.power_bus_v bus_v] else []
  let protocol := (dataOf d).protocol
  let r3 : List Reason :=
    if protocol ≠ some lim.data_protocol then
      [Reason.protocolMismatch lim.data_protocol protocol] else []
  let r4 : List Reason :=
    if s.used_power_w + maxW d > lim.power_budget_w then
      [Reason.powerExceeded s.used_power_w (maxW d) lim.power_budget_w] else []
  let r5 : List Reason :=
    if s.used_thermal_w + thermalW d > lim.thermal_budget_w then
      [Reason.thermalExceeded s.used_thermal_w (thermalW d) lim.thermal_budget_w]
    else []
  let r6 : List Reason :=
    if ¬ (requiresOf d ⊆ s.tags_present) then
      let missing := (requiresOf d \ s.tags_present).sort (· ≤ ·)
      if missing ≠ [] then [Reason.missingTags missing] else []
    else []
  let r7 : List Reason :=
    if (conflictsOf d ∩ s.tags_present).Nonempty then
      [Reason.conflictTags ((conflictsOf d ∩ s.tags_present).sort (· ≤ ·))]
    else []
  let reasons := r1 ++ r2 ++ r3 ++ r4 ++ r5 ++ r6 ++ r7
  (reasons = [], reasons)

/-- The tag-accumulation loop body shared by `discover_and_join` and
`remove_module`: for each capability, add `"COMPUTE"` when its `type` is
`"compute"`, and add its `tag` when present. -/
def addCapTags (tags : Finset String) (caps : List Cap) : Finset String :=
  caps.foldl (fun t c =>
    let t' := if c.type = some "compute" then insert "COMPUTE" t else t
    match c.tag with
    | some tg => insert tg t'
    | none => t') tags

/-- The registry together with its quarantine dict (`ModuleRegistry`). -/
structure Sys where
  state : SatelliteState := {}
  quarantine : List (String × Desc) := []
deriving DecidableEq

/-- The fresh system: default `SatelliteState`, empty quarantine. -/
def initSys : Sys := {}

/-- `ModuleRegistry.discover_and_join`.  Returns the mutated system and the
`(accepted, status, reasons)` triple. -/
def discover_and_join (sys : Sys) (d : Desc) :
    Sys × (Bool × String × List Reason) :=
  match basic_schema_check d with
  | (false, msg) =>
      let mid := d.module_id.getD "UNKNOWN"
      ({ sys with quarantine := dictInsert mid d sys.quarantine },
       (false, "QUARANTINED_SCHEMA", [msg]))
  | (true, _) =>
      let res := compatibility_check sys.state d
      let mid := d.module_id.getD "UNKNOWN"
      if ¬ res.1 then
        ({ sys with quarantine := dictInsert mid d sys.quarantine },
         (false, "QUARANTINED_COMPAT", res.2))
      else
        let st := sys.state
        let st' : SatelliteState :=
          { st with
            modules := dictInsert mid d st.modules
            used_power_w := st.used_power_w + maxW d
            used_thermal_w := st.used_thermal_w + thermalW d
            tags_present := addCapTags st.tags_present (d.capabilities.getD []) }
        ({ sys with state := st' }, (true, "JOINED", []))

/-- `ModuleRegistry.remove_module`: full recompute of budgets and tags from the
remaining modules. -/
def remove_module (sys : Sys) (module_id : String) : Sys × Bool :=
  if ¬ dictHas module_id sys.state.modules then
    (sys, false)
  else
    let rest := dictPop module_id sys.state.modules
    let st' : SatelliteState :=
      { sys.state with
        modules := rest
        used_power_w := rest.foldl (fun a p => a + maxW p.2) 0
        used_thermal_w := rest.foldl (fun a p => a + thermalW p.2) 0
        tags_present := rest.foldl
          (fun t p => addCapTags t (p.2.capabilities.getD [])) ∅ }
    ({ sys with state := st' }, true)

/-- An event published on the bus by the orchestrator. -/
inductive Event where
  | log (msg : String)
  | mode_changed (mode why : String)
deriving DecidableEq, Repr

/-- `Orchestrator` state: current mode, space-weather index (a stored numeric
value compared only against 6, modelled as a rational), optional minutes to
next pass. -/
structure Orchestrator where
  mode : String := "IDLE"
  kp_index : ℚ := 1
  next_pass_minutes : Option Int := none
deriving DecidableEq

/-- `Orchestrator._has_capability`. -/
def has_capability (st : SatelliteState) (cap_type : String) : Bool :=
  st.modules.any (fun p =>
    (p.2.capabilities.getD []).any (fun c => c.type = some cap_type))

/-- The `new_mode` computed inside `Orchestrator._recompose`: the if/elif rule
chain of the code. -/
def codeMode (o : Orchestrator) (st : SatelliteState) : String :=
  if o.kp_index ≥ 6 then "SAFE"
  else if ((match o.next_pass_minutes with
            | some m => decide (m ≤ 10)
            | none => false)
      && has_capability st "comms") = true then "DOWNLINK"
  else if has_capability st "imaging" then "IMAGING"
  else "IDLE"

/-- `Orchestrator._recompose`: compute the new mode by the rule chain, then
publish `MODE_CHANGED` only when the mode actually changes. -/
def recompose (o : Orchestrator) (st : SatelliteState) (reason : String) :
    Orchestrator × List Event :=
  let new_mode := codeMode o st
  if new_mode ≠ o.mode then
    ({ o with mode := new_mode }, [Event.mode_changed new_mode reason])
  else
    (o, [])

/-- `Orchestrator.on_anomaly`: publish the LOG event, set SAFE, publish
`MODE_CHANGED` unconditionally. -/
def on_anomaly (o : Orchestrator) (signature : Option String) :
    Orchestrator × List Event :=
  let s := signature.getD "unknown"
  ({ o with mode := "SAFE" },
   [Event.log ("Anomaly detected: " ++ s ++ ". Entering SAFE MODE."),
    Event.mode_changed "SAFE" "anomaly"])

/-- One registry operation of a trace. -/
inductive Op where
  | join (d : Desc)
  | remove (module_id : String)
deriving DecidableEq

/-- Run one operation, discarding the returned outcome. -/
def step (sys : Sys) : Op → Sys
  | Op.join d => (discover_and_join sys d).1
  | Op.remove i => (remove_module sys i).1

/-- Run a trace of operations from a system state. -/
def run (sys : Sys) : List Op → Sys
  | [] => sys
  | op :: ops => run (step sys op) ops

/-! ### Specification-side derived quantities

These definitions restate, in the spec's words, the derived quantities the
claims compare the state against: the budget sums, the per-module tag set,
the mode-priority function, and the seven compatibility rules. -/

/-- Sum of `interfaces.power.maxWatts` over a module map (absent field counts
as 0, as everywhere in the code). -/
def powerSum (m : List (String × Desc)) : Int :=
  (m.map (fun p => maxW p.2)).sum

/-- Sum of `constraints.thermalWatts` over a module map. -/
def thermalSum (m : List (String × Desc)) : Int :=
  (m.map (fun p => thermalW p.2)).sum

/-- The tag set contributed by one module per the spec: `"COMPUTE"` iff some
capability has `type == "compute"`, plus each capability's `tag` when
present. -/
def descTagSet (d : Desc) : Finset String :=
  (if (d.capabilities.getD []).any (fun c => c.type = some "compute")
   then {"COMPUTE"} else ∅)
  ∪ ((d.capabilities.getD []).filterMap Cap.tag).toFinset

/-- Union of the per-module tag sets over a module map. -/
def tagUnion (m : List (String × Desc)) : Finset String :=
  m.foldr (fun p acc => descTagSet p.2 ∪ acc) ∅

/-- The tag set contributed by a raw capability list. -/
def capsTagSet (caps : List Cap) : Finset String :=
  (if caps.any (fun c => c.type = some "compute") then {"COMPUTE"} else ∅)
  ∪ (caps.filterMap Cap.tag).toFinset

/-- The budget invariant the spec asserts of `SatelliteState`. -/
def StateInv (st : SatelliteState) : Prop :=
  st.used_power_w = powerSum st.modules
  ∧ st.used_thermal_w = thermalSum st.modules

/-- The tag invariant the spec asserts of `SatelliteState`. -/
def TagInv (st : SatelliteState) : Prop :=
  st.tags_present = tagUnion st.modules

/-- The separation invariant the spec asserts: no id is both joined and
quarantined. -/
def SepInv (sys : Sys) : Prop :=
  ∀ k, ¬ (dictHas k sys.state.modules = true
          ∧ dictHas k sys.quarantine = true)

/-- Some joined module has a capability of the given type. -/
def HasCapType (st : SatelliteState) (t : String) : Prop :=
  ∃ p ∈ st.modules, ∃ c ∈ p.2.capabilities.getD [], c.type = some t

instance (st : SatelliteState) (t : String) : Decidable (HasCapType st t) := by
  unfold HasCapType; infer_instance

instance (x : Option Int) : Decidable (∃ m, x = some m ∧ m ≤ 10) :=
  match x with
  | none => isFalse (by simp)
  | some v =>
      if h : v ≤ 10 then isTrue ⟨v, rfl, h⟩
      else isFalse (by simp [h])

/-- The mode the spec's priority rules prescribe: SAFE if the space-weather
index is at least 6; else DOWNLINK if a pass is set, at most 10 minutes away,
and a comms capability is joined; else IMAGING if an imaging capability is
joined; else IDLE. -/
def specMode (o : Orchestrator) (st : SatelliteState) : String :=
  if o.kp_index ≥ 6 then "SAFE"
  else if (∃ m, o.next_pass_minutes = some m ∧ m ≤ 10)
      ∧ HasCapType st "comms" then "DOWNLINK"
  else if HasCapType st "imaging" then "IMAGING"
  else "IDLE"

/-- The seven compatibility rules in evaluation order, each paired with the
reason it appends when violated. -/
def ruleTable (s : SatelliteState) (d : Desc) : List (Bool × Reason) :=
  [(¬ d.certified.getD false, Reason.notCertified),
   ((powerOf d).bus_v ≠ some s.limits.power_bus_v,
     Reason.busMismatch s.limits.power_bus_v (powerOf d).bus_v),
   ((dataOf d).protocol ≠ some s.limits.data_protocol,
     Reason.protocolMismatch s.limits.data_protocol (dataOf d).protocol),
   (s.used_power_w + maxW d > s.limits.power_budget_w,
     Reason.powerExceeded s.used_power_w (maxW d) s.limits.power_budget_w),
   (s.used_thermal_w + thermalW d > s.limits.thermal_budget_w,
     Reason.thermalExceeded s.used_thermal_w (thermalW d) s.limits.thermal_budget_w),
   (¬ requiresOf d ⊆ s.tags_present,
     Reason.missingTags ((requiresOf d \ s.tags_present).sort (· ≤ ·))),
   ((conflictsOf d ∩ s.tags_present).Nonempty,
     Reason.conflictTags ((conflictsOf d ∩ s.tags_present).sort (· ≤ ·)))]

/-- The reasons the spec prescribes: one entry per violated rule, in table
order. -/
def specReasons (s : SatelliteState) (d : Desc) : List Reason :=
  ((ruleTable s d).filter (fun p => p.1)).map (fun p => p.2)

/-- Number of violated compatibility rules. -/
def violatedCount (s : SatelliteState) (d : Desc) : Nat :=
  ((ruleTable s d).filter (fun p => p.1)).length

/-- The quarantine key `discover_and_join` uses for a descriptor. -/
def joinKey (d : Desc) : String := d.module_id.getD "UNKNOWN"

/-- Along a trace, every accepted join concerns a module id not already
joined. -/
def freshJoins (sys : Sys) : List Op → Bool
  | [] => true
  | Op.join d :: ops =>
      (!(discover_and_join sys d).2.1 || !dictHas (joinKey d) sys.state.modules)
      && freshJoins (step sys (Op.join d)) ops
  | Op.remove i :: ops => freshJoins (step sys (Op.remove i)) ops

/-- Along a trace, every accepted join's key is not currently quarantined and
every rejected join's key is not currently joined. -/
def freshSep (sys : Sys) : List Op → Bool
  | [] => true
  | Op.join d :: ops =>
      (if (discover_and_join sys d).2.1
       then !dictHas (joinKey d) sys.quarantine
       else !dictHas (joinKey d) sys.state.modules)
      && freshSep (step sys (Op.join d)) ops
  | Op.remove i :: ops => freshSep (step sys (Op.remove i)) ops

/-! ### Concrete descriptors used by witnesses and counterexamples -/

/-- A certified 28 V SpaceWire compute module: 20 W power, 5 W thermal. -/
def dCPU : Desc :=
  { module_id := some "CPU-001", name := some "cpu", vendor := some "acme"
    version := some "1.0", certified := some true
    interfaces := some ⟨some ⟨some 28, some 20⟩, some ⟨some "SpaceWire"⟩⟩
    capabilities := some [⟨some "compute", none⟩]
    constraints := some ⟨some 5, some [], some []⟩ }

/-- A certified comms module requiring `COMPUTE`: 15 W power, 5 W thermal,
capability `comms` with tag `"COMMS"`. -/
def dCOM : Desc :=
  { module_id := some "COM-001", name := some "com", vendor := some "acme"
    version := some "1.0", certified := some true
    interfaces := some ⟨some ⟨some 28, some 15⟩, some ⟨some "SpaceWire"⟩⟩
    capabilities := some [⟨some "comms", some "COMMS"⟩]
    constraints := some ⟨some 5, some ["COMPUTE"], none⟩ }

/-- An uncertified 12 V module: violates rules 1 and 2 exactly. -/
def dBad : Desc :=
  { module_id := some "MYS-001", name := some "mys", vendor := some "who"
    version := some "0.1", certified := some false
    interfaces := some ⟨some ⟨some 12, some 5⟩, some ⟨some "SpaceWire"⟩⟩
    capabilities := some []
    constraints := some ⟨some 1, none, none⟩ }

/-- A descriptor missing `module_id` and `certified`: fails the schema check. -/
def dNoSchema : Desc :=
  { module_id := none, name := some "x", vendor := some "y"
    version := some "1", certified := none
    interfaces := some ⟨some ⟨some 28, some 1⟩, some ⟨some "SpaceWire"⟩⟩
    capabilities := some []
    constraints := some ⟨some 1, none, none⟩ }

/-- Schema-complete descriptor whose `power` lacks `max_w` and whose
`constraints` lacks `thermal_w`. -/
def dNoWatts : Desc :=
  { module_id := some "ZERO-1", name := some "z", vendor := some "acme"
    version := some "1", certified := some true
    interfaces := some ⟨some ⟨some 28, none⟩, some ⟨some "SpaceWire"⟩⟩
    capabilities := some []
    constraints := some ⟨none, none, none⟩ }

/-- Certified module with id `"X"` carrying tag `"ALPHA"`. -/
def dTagA : Desc :=
  { module_id := some "X", name := some "a", vendor := some "acme"
    version := some "1", certified := some true
    interfaces := some ⟨some ⟨some 28, some 1⟩, some ⟨some "SpaceWire"⟩⟩
    capabilities := some [⟨some "sensor", some "ALPHA"⟩]
    constraints := some ⟨some 1, none, none⟩ }

/-- Certified module with the same id `"X"` carrying tag `"BETA"`. -/
def dTagB : Desc :=
  { module_id := some "X", name := some "b", vendor := some "acme"
    version := some "1", certified := some true
    interfaces := some ⟨some ⟨some 28, some 1⟩, some ⟨some "SpaceWire"⟩⟩
    capabilities := some [⟨some "sensor", some "BETA"⟩]
    constraints := some ⟨some 1, none, none⟩ }

/-- Uncertified descriptor with id `"CPU-001"`, same id as `dCPU`. -/
def dCPUbad : Desc :=
  { module_id := some "CPU-001", name := some "cpu2", vendor := some "acme"
    version := some "2.0", certified := some false
    interfaces := some ⟨some ⟨some 28, some 20⟩, some ⟨some "SpaceWire"⟩⟩
    capabilities := some [⟨some "compute", none⟩]
    constraints := some ⟨some 5, some [], some []⟩ }

/-! ### Helper lemmas -/

/-- Equation for `discover_and_join` on a schema failure. -/
theorem daj_schema_fail (sys : Sys) (d : Desc)
    (hb : (basic_schema_check d).1 = false) :
    discover_and_join sys d =
      ({ sys with quarantine := dictInsert (joinKey d) d sys.quarantine },
       (false, "QUARANTINED_SCHEMA", [(basic_schema_check d).2])) := by
  unfold discover_and_join joinKey
  rcases hb' : basic_schema_check d with ⟨b, msg⟩
  rw [hb'] at hb
  cases b
  · rfl
  · exact absurd hb (by simp)

/-- Equation for `discover_and_join` on a compatibility failure. -/
theorem daj_compat_fail (sys : Sys) (d : Desc)
    (hb : (basic_schema_check d).1 = true)
    (hc : (compatibility_check sys.state d).1 = false) :
    discover_and_join sys d =
      ({ sys with quarantine := dictInsert (joinKey d) d sys.quarantine },
       (false, "QUARANTINED_COMPAT", (compatibility_check sys.state d).2)) := by
  unfold discover_and_join joinKey
  rcases hb' : basic_schema_check d with ⟨b, msg⟩
  rw [hb'] at hb
  cases b
  · exact absurd hb (by simp)
  · simp only [hc]
    rfl

/-- Equation for `discover_and_join` on an accepted descriptor. -/
theorem daj_join (sys : Sys) (d : Desc)
    (hb : (basic_schema_check d).1 = true)
    (hc : (compatibility_check sys.state d).1 = true) :
    discover_and_join sys d =
      ({ sys with state :=
          { sys.state with
            modules := dictInsert (joinKey d) d sys.state.modules
            used_power_w := sys.state.used_power_w + maxW d
            used_thermal_w := sys.state.used_thermal_w + thermalW d
            tags_present :=
              addCapTags sys.state.tags_present (d.capabilities.getD []) } },
       (true, "JOINED", [])) := by
  unfold discover_and_join joinKey
  rcases hb' : basic_schema_check d with ⟨b, msg⟩
  rw [hb'] at hb
  cases b
  · exact absurd hb (by simp)
  · simp only [hc]
    rfl

/-- A rejected call leaves the satellite state untouched. -/
theorem reject_state_eq (sys : Sys) (d : Desc)
    (h : (discover_and_join sys d).2.1 = false) :
    (discover_and_join sys d).1.state = sys.state := by
  by_cases hb : (basic_schema_check d).1 = true
  · by_cases hc : (compatibility_check sys.state d).1 = true
    · rw [daj_join sys d hb hc] at h
      simp at h
    · rw [daj_compat_fail sys d hb (by simpa using hc)]
  · rw [daj_schema_fail sys d (by simpa using hb)]

/-- Folding addition of a projection equals the sum of the mapped list. -/
theorem foldl_add_eq_sum (f : String × Desc → Int) :
    ∀ (l : List (String × Desc)) (a : Int),
      l.foldl (fun acc p => acc + f p) a = a + (l.map f).sum
  | [], a => by simp
  | p :: l, a => by
    simp [foldl_add_eq_sum f l, add_assoc]

theorem descTagSet_eq (d : Desc) :
    descTagSet d = capsTagSet (d.capabilities.getD []) := rfl

/-- The sequential tag-accumulation loop computes the union with the
capability list's tag set. -/
theorem addCapTags_eq (caps : List Cap) :
    ∀ (t : Finset String), addCapTags t caps = t ∪ capsTagSet caps := by
  induction caps with
  | nil => intro t; simp [addCapTags, capsTagSet]
  | cons c cs ih =>
    intro t
    show addCapTags _ cs = _
    rw [ih]
    ext x
    rcases c with ⟨cty, ctag⟩
    by_cases h1 : cty = some "compute" <;>
      by_cases h2 : ∃ c ∈ cs, c.type = some "compute" <;>
        cases ctag <;>
          simp [capsTagSet, h1, h2, List.any_cons] <;> tauto

/-- The recompute-from-scratch tag loop equals the spec's union. -/
theorem tagsFold_eq (l : List (String × Desc)) :
    l.foldl (fun t p => addCapTags t (p.2.capabilities.getD [])) ∅ =
      tagUnion l := by
  suffices h : ∀ (t : Finset String),
      l.foldl (fun t p => addCapTags t (p.2.capabilities.getD [])) t =
        t ∪ tagUnion l by
    rw [h ∅]
    simp
  induction l with
  | nil => intro t; simp [tagUnion]
  | cons p l ih =>
    intro t
    show List.foldl _ (addCapTags t _) l = _
    rw [ih, addCapTags_eq, ← descTagSet_eq]
    show _ = t ∪ (descTagSet p.2 ∪ tagUnion l)
    rw [Finset.union_assoc]

/-- Acceptance is exactly a passing schema check plus a passing compatibility
check. -/
theorem daj_accepted (sys : Sys) (d : Desc) :
    (discover_and_join sys d).2.1 = true ↔
      (basic_schema_check d).1 = true
      ∧ (compatibility_check sys.state d).1 = true := by
  by_cases hb : (basic_schema_check d).1 = true
  · by_cases hc : (compatibility_check sys.state d).1 = true
    · rw [daj_join sys d hb hc]
      simp [hb, hc]
    · rw [daj_compat_fail sys d hb (by simpa using hc)]
      simp [hc]
  · rw [daj_schema_fail sys d (by simpa using hb)]
    simp [hb]

/-- `remove_module` in closed form: no-op returning `false` on an unknown id,
otherwise pop plus a from-scratch recompute of both budgets and the tag set. -/
theorem remove_module_eq (sys : Sys) (mid : String) :
    remove_module sys mid =
      if dictHas mid sys.state.modules then
        ({ sys with state :=
            { sys.state with
              modules := dictPop mid sys.state.modules
              used_power_w := powerSum (dictPop mid sys.state.modules)
              used_thermal_w := thermalSum (dictPop mid sys.state.modules)
              tags_present := tagUnion (dictPop mid sys.state.modules) } },
         true)
      else (sys, false) := by
  unfold remove_module
  by_cases h : dictHas mid sys.state.modules = true
  · simp only [h, Bool.not_true, if_pos, if_neg, not_true_eq_false, if_true]
    rw [if_neg (by simp)]
    rw [foldl_add_eq_sum, foldl_add_eq_sum, tagsFold_eq]
    simp [powerSum, thermalSum]
  · rw [if_pos, if_neg (by simpa using h)]
    simp [h]

/-- Key membership in a dict as an existential. -/
theorem dictHas_iff (k : String) (m : List (String × Desc)) :
    dictHas k m = true ↔ ∃ p ∈ m, p.1 = k := by
  unfold dictHas
  simp

/-- Keys after a dict update: the inserted key plus the old keys. -/
theorem dictHas_insert (k key : String) (d : Desc) (m : List (String × Desc)) :
    dictHas k (dictInsert key d m) = true ↔ k = key ∨ dictHas k m = true := by
  rw [dictHas_iff, dictHas_iff]
  unfold dictInsert
  by_cases h : m.any (fun p => p.1 = key) = true
  · rw [if_pos h]
    simp only [List.mem_map]
    constructor
    · rintro ⟨p, ⟨q, hq, rfl⟩, hpk⟩
      by_cases hk : q.1 = key
      · rw [if_pos hk] at hpk
        exact Or.inl hpk.symm
      · rw [if_neg hk] at hpk
        exact Or.inr ⟨q, hq, hpk⟩
    · rintro (rfl | ⟨p, hp, hpk⟩)
      · simp only [List.any_eq_true, decide_eq_true_eq] at h
        obtain ⟨q, hq, hqk⟩ := h
        exact ⟨(k, d), ⟨q, hq, by rw [if_pos hqk]⟩, rfl⟩
      · by_cases hk : p.1 = key
        · exact ⟨(key, d), ⟨p, hp, by rw [if_pos hk]⟩, by rw [← hk, hpk]⟩
        · exact ⟨p, ⟨p, hp, by rw [if_neg hk]⟩, hpk⟩
  · rw [if_neg h]
    simp only [List.mem_append, List.mem_singleton]
    constructor
    · rintro ⟨p, hp | rfl, hpk⟩
      · exact Or.inr ⟨p, hp, hpk⟩
      · exact Or.inl hpk.symm
    · rintro (rfl | ⟨p, hp, hpk⟩)
      · exact ⟨(k, d), Or.inr rfl, rfl⟩
      · exact ⟨p, Or.inl hp, hpk⟩

/-- Popping a key only removes keys. -/
theorem dictHas_pop (k i : String) (m : List (String × Desc))
    (h : dictHas k (dictPop i m) = true) : dictHas k m = true := by
  rw [dictHas_iff] at h ⊢
  obtain ⟨p, hp, hpk⟩ := h
  exact ⟨p, List.mem_of_mem_filter hp, hpk⟩

/-- A fresh-key dict update is an append. -/
theorem dictInsert_fresh (key : String) (d : Desc) (m : List (String × Desc))
    (h : dictHas key m = false) : dictInsert key d m = m ++ [(key, d)] := by
  unfold dictInsert
  unfold dictHas at h
  rw [if_neg (by simp [h])]

/-- Sorting a finite set yields `[]` exactly for the empty set. -/
theorem sort_nil_iff {α : Type} (r : α → α → Prop) [DecidableRel r]
    [IsTrans α r] [IsAntisymm α r] [IsTotal α r] (s : Finset α) :
    s.sort r = [] ↔ s = ∅ := by
  constructor
  · intro h
    have hl : (Finset.sort r s).length = s.card := Finset.length_sort r
    rw [h] at hl
    exact Finset.card_eq_zero.mp hl.symm
  · intro h
    simp [h]

/-- Appending one module on the right adds its tag set to the union. -/
theorem tagUnion_append (l : List (String × Desc)) (p : String × Desc) :
    tagUnion (l ++ [p]) = tagUnion l ∪ descTagSet p.2 := by
  induction l with
  | nil => simp [tagUnion]
  | cons q l ih =>
    show descTagSet q.2 ∪ tagUnion (l ++ [p])
        = (descTagSet q.2 ∪ tagUnion l) ∪ descTagSet p.2
    rw [ih, Finset.union_assoc]

/-- Appending one module on the right adds its draw to the power sum. -/
theorem powerSum_append (l : List (String × Desc)) (p : String × Desc) :
    powerSum (l ++ [p]) = powerSum l + maxW p.2 := by
  simp [powerSum]

/-- Appending one module on the right adds its draw to the thermal sum. -/
theorem thermalSum_append (l : List (String × Desc)) (p : String × Desc) :
    thermalSum (l ++ [p]) = thermalSum l + thermalW p.2 := by
  simp [thermalSum]

/-- A rejected call quarantines the descriptor under its key. -/
theorem reject_quarantine_eq (sys : Sys) (d : Desc)
    (h : (discover_and_join sys d).2.1 = false) :
    (discover_and_join sys d).1.quarantine
      = dictInsert (joinKey d) d sys.quarantine := by
  by_cases hb : (basic_schema_check d).1 = true
  · by_cases hc : (compatibility_check sys.state d).1 = true
    · rw [daj_join sys d hb hc] at h
      simp at h
    · rw [daj_compat_fail sys d hb (by simpa using hc)]
  · rw [daj_schema_fail sys d (by simpa using hb)]

/-- An accepted call leaves the quarantine untouched. -/
theorem accept_quarantine_eq (sys : Sys) (d : Desc)
    (h : (discover_and_join sys d).2.1 = true) :
    (discover_and_join sys d).1.quarantine = sys.quarantine := by
  obtain ⟨hb, hc⟩ := (daj_accepted sys d).mp h
  rw [daj_join sys d hb hc]

/-- An accepted call inserts the descriptor under its key. -/
theorem accept_modules_eq (sys : Sys) (d : Desc)
    (h : (discover_and_join sys d).2.1 = true) :
    (discover_and_join sys d).1.state.modules
      = dictInsert (joinKey d) d sys.state.modules := by
  obtain ⟨hb, hc⟩ := (daj_accepted sys d).mp h
  rw [daj_join sys d hb hc]

/-- Filter-then-map over a cons, as an if-block concatenation. -/
theorem fmcons {α β : Type} (p : α → Bool) (f : α → β) (a : α) (l : List α) :
    ((a :: l).filter p).map f
      = (if p a = true then [f a] else []) ++ (l.filter p).map f := by
  by_cases h : p a = true <;> simp [h]

/-- The compatibility check's accumulated reasons are exactly the spec's
one-per-violated-rule list, in table order. -/
theorem compat_reasons_eq (s : SatelliteState) (d : Desc) :
    (compatibility_check s d).2 = specReasons s d := by
  unfold compatibility_check specReasons ruleTable
  simp only [fmcons, List.filter_nil, List.map_nil, List.append_nil,
    decide_eq_true_eq]
  split_ifs <;>
    first
      | rfl
      | simp_all [sort_nil_iff, Finset.sdiff_eq_empty_iff_subset]

/-- The compatibility verdict is emptiness of the reasons list. -/
theorem compat_fst (s : SatelliteState) (d : Desc) :
    (compatibility_check s d).1
      = decide ((compatibility_check s d).2 = []) := rfl

/-- The number of violated rules is the length of the spec's reason list. -/
theorem specReasons_length (s : SatelliteState) (d : Desc) :
    (specReasons s d).length = violatedCount s d := by
  unfold specReasons violatedCount
  simp

/-- `_has_capability` decides the spec's existential. -/
theorem has_capability_iff (st : SatelliteState) (t : String) :
    has_capability st t = true ↔ HasCapType st t := by
  unfold has_capability HasCapType
  simp

/-- The code's pass-soon test decides the spec's existential. -/
theorem pass_soon_iff (x : Option Int) :
    (match x with
     | some m => decide (m ≤ 10)
     | none => false) = true ↔ ∃ m, x = some m ∧ m ≤ 10 := by
  cases x <;> simp

/-- The code's mode rule chain computes the spec's priority mode. -/
theorem codeMode_eq_specMode (o : Orchestrator) (st : SatelliteState) :
    codeMode o st = specMode o st := by
  unfold codeMode specMode
  by_cases h1 : o.kp_index ≥ 6 <;>
    by_cases h2 : ∃ m, o.next_pass_minutes = some m ∧ m ≤ 10 <;>
      by_cases h3 : HasCapType st "comms" <;>
        by_cases h4 : HasCapType st "imaging" <;>
          simp [h1, h2, h3, h4, pass_soon_iff, has_capability_iff]

/-- `_recompose` in closed form: set the spec's priority mode and publish
`MODE_CHANGED` exactly when the mode changes. -/
theorem recompose_eq (o : Orchestrator) (st : SatelliteState) (reason : String) :
    recompose o st reason =
      if specMode o st ≠ o.mode then
        ({ o with mode := specMode o st },
         [Event.mode_changed (specMode o st) reason])
      else (o, []) := by
  unfold recompose
  rw [codeMode_eq_specMode]

/-- The budget invariant is preserved along any trace whose accepted joins
use fresh module ids. -/
theorem budget_step_invariant :
    ∀ (ops : List Op) (sys : Sys),
      StateInv sys.state → freshJoins sys ops = true →
      StateInv (run sys ops).state := by
  intro ops
  induction ops with
  | nil => intro sys hI _; exact hI
  | cons op ops ih =>
    intro sys hI hf
    cases op with
    | join d =>
      rw [freshJoins, Bool.and_eq_true] at hf
      obtain ⟨h1, h2⟩ := hf
      refine ih _ ?_ h2
      show StateInv (discover_and_join sys d).1.state
      by_cases ha : (discover_and_join sys d).2.1 = true
      · have hfresh : dictHas (joinKey d) sys.state.modules = false := by
          rw [Bool.or_eq_true, Bool.not_eq_true', Bool.not_eq_true'] at h1
          rcases h1 with h1 | h1
          · rw [ha] at h1; cases h1
          · exact h1
        obtain ⟨hb, hc⟩ := (daj_accepted sys d).mp ha
        rw [daj_join sys d hb hc]
        refine ⟨?_, ?_⟩
        · show sys.state.used_power_w + maxW d
            = powerSum (dictInsert (joinKey d) d sys.state.modules)
          rw [dictInsert_fresh _ _ _ hfresh, powerSum_append, hI.1]
        · show sys.state.used_thermal_w + thermalW d
            = thermalSum (dictInsert (joinKey d) d sys.state.modules)
          rw [dictInsert_fresh _ _ _ hfresh, thermalSum_append, hI.2]
      · rw [reject_state_eq sys d (by simpa using ha)]
        exact hI
    | remove i =>
      rw [freshJoins] at hf
      refine ih _ ?_ hf
      show StateInv (remove_module sys i).1.state
      rw [remove_module_eq]
      by_cases h : dictHas i sys.state.modules = true
      · rw [if_pos h]
        exact ⟨rfl, rfl⟩
      · rw [if_neg (by simpa using h)]
        exact hI

/-- The tag invariant is preserved along any trace whose accepted joins use
fresh module ids. -/
theorem tag_step_invariant :
    ∀ (ops : List Op) (sys : Sys),
      TagInv sys.state → freshJoins sys ops = true →
      TagInv (run sys ops).state := by
  intro ops
  induction ops with
  | nil => intro sys hI _; exact hI
  | cons op ops ih =>
    intro sys hI hf
    cases op with
    | join d =>
      rw [freshJoins, Bool.and_eq_true] at hf
      obtain ⟨h1, h2⟩ := hf
      refine ih _ ?_ h2
      show TagInv (discover_and_join sys d).1.state
      by_cases ha : (discover_and_join sys d).2.1 = true
      · have hfresh : dictHas (joinKey d) sys.state.modules = false := by
          rw [Bool.or_eq_true, Bool.not_eq_true', Bool.not_eq_true'] at h1
          rcases h1 with h1 | h1
          · rw [ha] at h1; cases h1
          · exact h1
        obtain ⟨hb, hc⟩ := (daj_accepted sys d).mp ha
        rw [daj_join sys d hb hc]
        show addCapTags sys.state.tags_present (d.capabilities.getD [])
          = tagUnion (dictInsert (joinKey d) d sys.state.modules)
        rw [dictInsert_fresh _ _ _ hfresh, tagUnion_append, addCapTags_eq,
          hI, descTagSet_eq]
      · rw [reject_state_eq sys d (by simpa using ha)]
        exact hI
    | remove i =>
      rw [freshJoins] at hf
      refine ih _ ?_ hf
      show TagInv (remove_module sys i).1.state
      rw [remove_module_eq]
      by_cases h : dictHas i sys.state.modules = true
      · rw [if_pos h]
        exact rfl
      · rw [if_neg (by simpa using h)]
        exact hI

/-- The separation invariant is preserved along any trace whose accepted
joins avoid quarantined keys and whose rejected joins avoid joined keys. -/
theorem sep_step_invariant :
    ∀ (ops : List Op) (sys : Sys),
      SepInv sys → freshSep sys ops = true →
      SepInv (run sys ops) := by
  intro ops
  induction ops with
  | nil => intro sys hI _; exact hI
  | cons op ops ih =>
    intro sys hI hf
    cases op with
    | join d =>
      rw [freshSep, Bool.and_eq_true] at hf
      obtain ⟨h1, h2⟩ := hf
      refine ih _ ?_ h2
      show SepInv (discover_and_join sys d).1
      by_cases ha : (discover_and_join sys d).2.1 = true
      · rw [if_pos ha, Bool.not_eq_true'] at h1
        intro k hk
        rw [accept_quarantine_eq sys d ha] at hk
        rw [accept_modules_eq sys d ha] at hk
        rcases (dictHas_insert k (joinKey d) d sys.state.modules).mp hk.1
          with rfl | hm
        · rw [h1] at hk
          cases hk.2
        · exact hI k ⟨hm, hk.2⟩
      · have ha' : (discover_and_join sys d).2.1 = false := by simpa using ha
        rw [if_neg (by simp [ha']), Bool.not_eq_true'] at h1
        intro k hk
        rw [reject_state_eq sys d ha'] at hk
        rw [reject_quarantine_eq sys d ha'] at hk
        rcases (dictHas_insert k (joinKey d) d sys.quarantine).mp hk.2
          with rfl | hq
        · rw [h1] at hk
          cases hk.1
        · exact hI k ⟨hk.1, hq⟩
    | remove i =>
      rw [freshSep] at hf
      refine ih _ ?_ hf
      show SepInv (remove_module sys i).1
      rw [remove_module_eq]
      by_cases h : dictHas i sys.state.modules = true
      · rw [if_pos h]
        intro k hk
        exact hI k ⟨dictHas_pop k i sys.state.modules hk.1, hk.2⟩
      · rw [if_neg (by simpa using h)]
        exact hI

/-! ### Claim theorems -/

/-- C1 (counterexample): the budget invariant as stated fails on the code.
Joining the descriptor `dCPU` twice (same module id) overwrites the single
`modules` entry but adds its power and thermal draw twice, so
`usedPowerWatts` (40) differs from the sum over joined modules (20). -/
theorem c1_budget_invariant_cex :
    ¬ StateInv (run initSys [Op.join dCPU, Op.join dCPU]).state :=
  fun h => absurd h.1 (by decide)

/-- C1 (amended): for every sequence of `discover_and_join` and
`remove_module` calls from a fresh state in which no accepted join's module
id is already joined, `usedPowerWatts` equals the sum of
`interfaces.power.maxWatts` and `usedThermalWatts` the sum of
`constraints.thermalWatts` over the currently joined modules. -/
theorem c1_budget_invariant_amended (ops : List Op)
    (h : freshJoins initSys ops = true) :
    StateInv (run initSys ops).state :=
  budget_step_invariant ops initSys ⟨rfl, rfl⟩ h

/-- Witness for C1: a concrete join/join/remove trace satisfying the
freshness side condition, on which the budget invariant therefore holds. -/
theorem c1_budget_invariant_amended_witness :
    freshJoins initSys [Op.join dCPU, Op.join dCOM, Op.remove "CPU-001"] = true
    ∧ StateInv
        (run initSys [Op.join dCPU, Op.join dCOM, Op.remove "CPU-001"]).state :=
  ⟨by decide,
   c1_budget_invariant_amended
     [Op.join dCPU, Op.join dCOM, Op.remove "CPU-001"] (by decide)⟩

/-- C2 (counterexample): the tag invariant as stated fails on the code.
Joining `dTagA` (tag `"ALPHA"`) and then `dTagB` (same id, tag `"BETA"`)
leaves `tagsPresent = {"ALPHA", "BETA"}` while the union over the single
joined module is `{"BETA"}`. -/
theorem c2_tag_invariant_cex :
    ¬ TagInv (run initSys [Op.join dTagA, Op.join dTagB]).state := by
  intro h
  have h' : (run initSys [Op.join dTagA, Op.join dTagB]).state.tags_present
      = tagUnion (run initSys [Op.join dTagA, Op.join dTagB]).state.modules := h
  exact absurd h' (by decide)

/-- C2 (amended): for every sequence of `discover_and_join` and
`remove_module` calls from a fresh state in which no accepted join's module
id is already joined, `tagsPresent` equals the union over joined modules of
`"COMPUTE"` (iff some capability has type `"compute"`) and the capabilities'
present `tag` fields. -/
theorem c2_tag_invariant_amended (ops : List Op)
    (h : freshJoins initSys ops = true) :
    TagInv (run initSys ops).state :=
  tag_step_invariant ops initSys rfl h

/-- Witness for C2: a concrete trace satisfying the freshness side
condition, on which the tag invariant therefore holds. -/
theorem c2_tag_invariant_amended_witness :
    freshJoins initSys [Op.join dTagA, Op.join dCPU, Op.remove "X"] = true
    ∧ TagInv (run initSys [Op.join dTagA, Op.join dCPU, Op.remove "X"]).state :=
  ⟨by decide,
   c2_tag_invariant_amended
     [Op.join dTagA, Op.join dCPU, Op.remove "X"] (by decide)⟩

/-- C3 (counterexample): the modules/quarantine separation fails on the
code.  After joining `dCPU` and then submitting the incompatible `dCPUbad`
(same id `"CPU-001"`), the id is simultaneously joined and quarantined. -/
theorem c3_separation_cex :
    dictHas "CPU-001"
        (run initSys [Op.join dCPU, Op.join dCPUbad]).state.modules = true
    ∧ dictHas "CPU-001"
        (run initSys [Op.join dCPU, Op.join dCPUbad]).quarantine = true := by
  exact ⟨by decide, by decide⟩

/-- C3 (amended): for every sequence of `discover_and_join` and
`remove_module` calls from a fresh system in which every accepted join's key
is not currently quarantined and every rejected join's key is not currently
joined, no module id is ever simultaneously a key of `modules` and of the
quarantine. -/
theorem c3_separation_amended (ops : List Op)
    (h : freshSep initSys ops = true) :
    SepInv (run initSys ops) :=
  sep_step_invariant ops initSys
    (fun _ hk => by simp [dictHas, initSys] at hk) h

/-- Witness for C3: a concrete trace with one accepted and one rejected
join, satisfying the side condition, on which separation therefore holds. -/
theorem c3_separation_amended_witness :
    freshSep initSys [Op.join dCPU, Op.join dBad] = true
    ∧ SepInv (run initSys [Op.join dCPU, Op.join dBad]) :=
  ⟨by decide,
   c3_separation_amended [Op.join dCPU, Op.join dBad] (by decide)⟩

/-- C4: `recompose` sets the mode to the first matching rule's target in
strict priority order (SAFE on space weather ≥ 6, else DOWNLINK on an
imminent pass with a comms capability, else IMAGING with an imaging
capability, else IDLE), publishes `MODE_CHANGED {mode, why: reason}` iff the
resulting mode differs from the current one, and a second call with
unchanged inputs is a silent no-op. -/
theorem c4_recompose_priority (o : Orchestrator) (st : SatelliteState)
    (reason reason2 : String) :
    (recompose o st reason).1.mode = specMode o st
    ∧ (recompose o st reason).2
        = (if specMode o st ≠ o.mode
           then [Event.mode_changed (specMode o st) reason] else [])
    ∧ recompose (recompose o st reason).1 st reason2
        = ((recompose o st reason).1, []) := by
  rw [recompose_eq o st reason]
  by_cases h : specMode o st ≠ o.mode
  · rw [if_pos h]
    refine ⟨rfl, by rw [if_pos h], ?_⟩
    show recompose { o with mode := specMode o st } st reason2
      = ({ o with mode := specMode o st }, [])
    rw [recompose_eq]
    have hmode : specMode { o with mode := specMode o st } st
        = specMode o st := rfl
    rw [hmode]
    simp
  · rw [if_neg h]
    refine ⟨(not_not.mp h).symm, by rw [if_neg h], ?_⟩
    show recompose o st reason2 = (o, [])
    rw [recompose_eq, if_neg h]

/-- C5: a schema-passing descriptor violating at least one compatibility
rule is quarantined under its id and rejected with status
`QUARANTINED_COMPAT`; the reasons list is exactly one entry per violated
rule, in the fixed evaluation order of the rule table. -/
theorem c5_full_reason_reporting (sys : Sys) (d : Desc)
    (hb : (basic_schema_check d).1 = true)
    (hn : specReasons sys.state d ≠ []) :
    (compatibility_check sys.state d).2 = specReasons sys.state d
    ∧ (compatibility_check sys.state d).2.length = violatedCount sys.state d
    ∧ (discover_and_join sys d).2
        = (false, "QUARANTINED_COMPAT", specReasons sys.state d)
    ∧ (discover_and_join sys d).1.quarantine
        = dictInsert (d.module_id.getD "UNKNOWN") d sys.quarantine := by
  have hc2 : (compatibility_check sys.state d).2 ≠ [] := by
    rw [compat_reasons_eq]
    exact hn
  have hc : (compatibility_check sys.state d).1 = false := by
    rw [compat_fst]
    simpa using hc2
  rw [daj_compat_fail sys d hb hc]
  refine ⟨compat_reasons_eq sys.state d, ?_, ?_, rfl⟩
  · rw [compat_reasons_eq]
    exact specReasons_length sys.state d
  · rw [compat_reasons_eq]

/-- Witness for C5: `dBad` passes the schema check and violates exactly the
certification and bus-voltage rules, yielding two reasons in order. -/
theorem c5_full_reason_reporting_witness :
    (basic_schema_check dBad).1 = true
    ∧ specReasons initSys.state dBad ≠ []
    ∧ ((compatibility_check initSys.state dBad).2
          = specReasons initSys.state dBad
       ∧ (compatibility_check initSys.state dBad).2.length
          = violatedCount initSys.state dBad
       ∧ (discover_and_join initSys dBad).2
          = (false, "QUARANTINED_COMPAT", specReasons initSys.state dBad)
       ∧ (discover_and_join initSys dBad).1.quarantine
          = dictInsert (dBad.module_id.getD "UNKNOWN") dBad
              initSys.quarantine) :=
  ⟨by decide, by decide,
   c5_full_reason_reporting initSys dBad (by decide) (by decide)⟩

/-- C6: a descriptor failing the schema check is quarantined under its
module id (or `"UNKNOWN"` when absent), the compatibility check is never
reached (the state is untouched and the status is the schema one), and the
result is `(false, QUARANTINED_SCHEMA, [one message])`. -/
theorem c6_schema_rejection (sys : Sys) (d : Desc)
    (h : (basic_schema_check d).1 = false) :
    (discover_and_join sys d).2
        = (false, "QUARANTINED_SCHEMA", [(basic_schema_check d).2])
    ∧ (discover_and_join sys d).1.quarantine
        = dictInsert (d.module_id.getD "UNKNOWN") d sys.quarantine
    ∧ (discover_and_join sys d).1.state = sys.state := by
  rw [daj_schema_fail sys d h]
  exact ⟨rfl, rfl, rfl⟩

/-- Witness for C6: `dNoSchema` lacks `module_id` and `certified`; it is
quarantined under `"UNKNOWN"` with a single missing-keys message. -/
theorem c6_schema_rejection_witness :
    (basic_schema_check dNoSchema).1 = false
    ∧ ((discover_and_join initSys dNoSchema).2
          = (false, "QUARANTINED_SCHEMA", [(basic_schema_check dNoSchema).2])
       ∧ (discover_and_join initSys dNoSchema).1.quarantine
          = dictInsert (dNoSchema.module_id.getD "UNKNOWN") dNoSchema
              initSys.quarantine
       ∧ (discover_and_join initSys dNoSchema).1.state = initSys.state) :=
  ⟨by decide, c6_schema_rejection initSys dNoSchema (by decide)⟩

/-- C7: whenever `discover_and_join` rejects a descriptor (schema or
compatibility), the satellite state keeps all its pre-call values: modules,
used power, used thermal, and present tags are unchanged. -/
theorem c7_reject_no_mutation (sys : Sys) (d : Desc)
    (h : (discover_and_join sys d).2.1 = false) :
    (discover_and_join sys d).1.state.modules = sys.state.modules
    ∧ (discover_and_join sys d).1.state.used_power_w
        = sys.state.used_power_w
    ∧ (discover_and_join sys d).1.state.used_thermal_w
        = sys.state.used_thermal_w
    ∧ (discover_and_join sys d).1.state.tags_present
        = sys.state.tags_present := by
  rw [reject_state_eq sys d h]
  exact ⟨rfl, rfl, rfl, rfl⟩

/-- Witness for C7: the rejected `dBad` leaves the fresh state unchanged. -/
theorem c7_reject_no_mutation_witness :
    (discover_and_join initSys dBad).2.1 = false
    ∧ ((discover_and_join initSys dBad).1.state.modules
          = initSys.state.modules
       ∧ (discover_and_join initSys dBad).1.state.used_power_w
          = initSys.state.used_power_w
       ∧ (discover_and_join initSys dBad).1.state.used_thermal_w
          = initSys.state.used_thermal_w
       ∧ (discover_and_join initSys dBad).1.state.tags_present
          = initSys.state.tags_present) :=
  ⟨by decide, c7_reject_no_mutation initSys dBad (by decide)⟩

/-- C8: `removeModule` returns `false` with no side effect on an unknown id;
otherwise it removes the entry and fully recomputes `usedPowerWatts`,
`usedThermalWatts`, and `tagsPresent` from scratch over the remaining
modules, returning `true`. -/
theorem c8_remove_module (sys : Sys) (mid : String) :
    remove_module sys mid =
      if dictHas mid sys.state.modules then
        ({ sys with state :=
            { sys.state with
              modules := dictPop mid sys.state.modules
              used_power_w := powerSum (dictPop mid sys.state.modules)
              used_thermal_w := thermalSum (dictPop mid sys.state.modules)
              tags_present := tagUnion (dictPop mid sys.state.modules) } },
         true)
      else (sys, false) :=
  remove_module_eq sys mid

/-- C9: handling an ANOMALY event bypasses `recompose`: it unconditionally
sets the mode to SAFE and publishes the LOG event followed by
`MODE_CHANGED {mode: SAFE, why: "anomaly"}`, even when the mode was already
SAFE. -/
theorem c9_anomaly_override (o : Orchestrator) (sig : Option String) :
    on_anomaly o sig =
      ({ o with mode := "SAFE" },
       [Event.log ("Anomaly detected: " ++ sig.getD "unknown"
          ++ ". Entering SAFE MODE."),
        Event.mode_changed "SAFE" "anomaly"]) := rfl

/-- C10: a structurally complete descriptor passes the schema check no
matter whether `maxWatts` or `thermalWatts` are present; whichever of the
two fields is missing is treated as 0 — its budget check degenerates to
comparing the pre-join total against the budget, and on admission the
module contributes 0 to that used total. -/
theorem c10_missing_watts_default_zero (sys : Sys) (d : Desc)
    (hk : missingKeysOf d = [])
    (hp : (d.interfaces.getD ⟨none, none⟩).power.isSome = true)
    (hd : (d.interfaces.getD ⟨none, none⟩).data.isSome = true) :
    (basic_schema_check d).1 = true
    ∧ ((powerOf d).max_w = none →
        maxW d = 0
        ∧ ((sys.state.used_power_w + maxW d
              > sys.state.limits.power_budget_w)
            ↔ (sys.state.used_power_w > sys.state.limits.power_budget_w))
        ∧ ((discover_and_join sys d).2.1 = true →
            (discover_and_join sys d).1.state.used_power_w
                = sys.state.used_power_w))
    ∧ ((constraintsOf d).thermal_w = none →
        thermalW d = 0
        ∧ ((sys.state.used_thermal_w + thermalW d
              > sys.state.limits.thermal_budget_w)
            ↔ (sys.state.used_thermal_w
              > sys.state.limits.thermal_budget_w))
        ∧ ((discover_and_join sys d).2.1 = true →
            (discover_and_join sys d).1.state.used_thermal_w
                = sys.state.used_thermal_w)) := by
  refine ⟨?_, ?_, ?_⟩
  · have hp' := Option.isSome_iff_ne_none.mp hp
    have hd' := Option.isSome_iff_ne_none.mp hd
    unfold basic_schema_check
    rw [if_neg (by simp [hk])]
    rw [if_neg (by simp [Option.isNone_iff_eq_none, hp', hd'])]
  · intro hw
    have hmw : maxW d = 0 := by
      rw [maxW, hw]
      rfl
    refine ⟨hmw, by rw [hmw, add_zero], ?_⟩
    intro ha
    obtain ⟨hb, hc⟩ := (daj_accepted sys d).mp ha
    rw [daj_join sys d hb hc]
    show sys.state.used_power_w + maxW d = sys.state.used_power_w
    rw [hmw]
    exact add_zero _
  · intro ht
    have htw : thermalW d = 0 := by
      rw [thermalW, ht]
      rfl
    refine ⟨htw, by rw [htw, add_zero], ?_⟩
    intro ha
    obtain ⟨hb, hc⟩ := (daj_accepted sys d).mp ha
    rw [daj_join sys d hb hc]
    show sys.state.used_thermal_w + thermalW d = sys.state.used_thermal_w
    rw [htw]
    exact add_zero _

/-- Witness for C10: `dNoWatts` is structurally complete, so the theorem
applies; it lacks both watt fields, so both per-field implications fire:
it passes the schema check, is admitted against the fresh state, and adds
nothing to either used total. -/
theorem c10_missing_watts_default_zero_witness :
    missingKeysOf dNoWatts = []
    ∧ (dNoWatts.interfaces.getD ⟨none, none⟩).power.isSome = true
    ∧ (dNoWatts.interfaces.getD ⟨none, none⟩).data.isSome = true
    ∧ ((basic_schema_check dNoWatts).1 = true
       ∧ ((powerOf dNoWatts).max_w = none →
           maxW dNoWatts = 0
           ∧ ((initSys.state.used_power_w + maxW dNoWatts
                  > initSys.state.limits.power_budget_w)
               ↔ (initSys.state.used_power_w
                  > initSys.state.limits.power_budget_w))
           ∧ ((discover_and_join initSys dNoWatts).2.1 = true →
               (discover_and_join initSys dNoWatts).1.state.used_power_w
                   = initSys.state.used_power_w))
       ∧ ((constraintsOf dNoWatts).thermal_w = none →
           thermalW dNoWatts = 0
           ∧ ((initSys.state.used_thermal_w + thermalW dNoWatts
                  > initSys.state.limits.thermal_budget_w)
               ↔ (initSys.state.used_thermal_w
                  > initSys.state.limits.thermal_budget_w))
           ∧ ((discover_and_join initSys dNoWatts).2.1 = true →
               (discover_and_join initSys dNoWatts).1.state.used_thermal_w
                   = initSys.state.used_thermal_w))) :=
  ⟨by decide, by decide, by decide,
   c10_missing_watts_default_zero initSys dNoWatts
     (by decide) (by decide) (by decide)⟩

end Satellite
